import Mathlib

/-!
Verification of the RAG-Lab demo scripts (src/javascript-langchain/app.js).

The script's only numeric logic is `cosineSimilarity`; the rest is
sequential orchestration (credential check, document loading, embedding
fetch).  JavaScript numbers are modelled by real numbers, with an explicit
value type `JsVal` recording the IEEE special results (NaN, ±Infinity)
that JavaScript division produces on a zero denominator; exact real
arithmetic idealises the float accumulation.  Effectful orchestration is
modelled by pure functions that return a trace of observable effects
(console lines, file reads, embedding calls) alongside their result.
-/

/-- Result value of a JavaScript floating-point computation: either an
ordinary number, one of the two infinities, or NaN. -/
inductive JsVal where
  | num (x : ℝ)
  | posInf
  | negInf
  | nan

/-- JavaScript division `a / b`: an ordinary quotient when `b ≠ 0`, and the
IEEE special values on a zero denominator (`0/0 = NaN`, `x/0 = ±Infinity`). -/
noncomputable def jsDiv (a b : ℝ) : JsVal :=
  if b = 0 then
    if a = 0 then JsVal.nan else if 0 < a then JsVal.posInf else JsVal.negInf
  else JsVal.num (a / b)

/-- Dot product of two lists, pairing elements positionally and ignoring any
tail of the longer list (as the source loop over `i < vectorA.length` would
only ever be run after the equal-length guard). -/
noncomputable def dotl : List ℝ → List ℝ → ℝ
  | x :: xs, y :: ys => x * y + dotl xs ys
  | _, _ => 0

/-- Sum of squares of a list (the value the source accumulates in `normA`
and `normB`; note these variables hold the squared Euclidean norm). -/
noncomputable def normSq (a : List ℝ) : ℝ := dotl a a

/-- The accumulator loop of `cosineSimilarity` (app.js lines 21-29): one
left-to-right pass accumulating `dotProduct`, `normA`, `normB`. -/
noncomputable def cosLoop (a b : List ℝ) : ℝ × ℝ × ℝ :=
  (a.zip b).foldl
    (fun acc p => (acc.1 + p.1 * p.2, acc.2.1 + p.1 * p.1, acc.2.2 + p.2 * p.2))
    (0, 0, 0)

/-- `cosineSimilarity` (app.js lines 16-32): throws when the lengths differ
(modelled by `Except.error` with the thrown message), otherwise returns
`dotProduct / (Math.sqrt(normA) * Math.sqrt(normB))` under JavaScript
division semantics. -/
noncomputable def cosineSimilarity (vectorA vectorB : List ℝ) : Except String JsVal :=
  if vectorA.length ≠ vectorB.length then
    Except.error "Vectors must have the same dimensions"
  else
    let acc := cosLoop vectorA vectorB
    Except.ok (jsDiv acc.1 (Real.sqrt acc.2.1 * Real.sqrt acc.2.2))

lemma cosLoop_go (a : List ℝ) : ∀ (b : List ℝ) (i : ℝ × ℝ × ℝ),
    a.length = b.length →
    (a.zip b).foldl
      (fun acc p => (acc.1 + p.1 * p.2, acc.2.1 + p.1 * p.1, acc.2.2 + p.2 * p.2))
      i = (i.1 + dotl a b, i.2.1 + normSq a, i.2.2 + normSq b) := by
  induction a with
  | nil =>
    intro b i h
    cases b with
    | nil => simp [dotl, normSq]
    | cons y ys => simp at h
  | cons x xs ih =>
    intro b i h
    cases b with
    | nil => simp at h
    | cons y ys =>
      simp only [List.length_cons, Nat.add_right_cancel_iff] at h
      simp only [List.zip_cons_cons, List.foldl_cons]
      rw [ih ys _ h]
      simp only [dotl, normSq]
      refine Prod.ext ?_ (Prod.ext ?_ ?_) <;> simp <;> ring

lemma cosLoop_eq (a b : List ℝ) (h : a.length = b.length) :
    cosLoop a b = (dotl a b, normSq a, normSq b) := by
  unfold cosLoop
  rw [cosLoop_go a b (0, 0, 0) h]
  simp

lemma dotl_comm (a : List ℝ) : ∀ b : List ℝ, dotl a b = dotl b a := by
  induction a with
  | nil => intro b; cases b <;> simp [dotl]
  | cons x xs ih =>
    intro b
    cases b with
    | nil => simp [dotl]
    | cons y ys => simp [dotl, ih, mul_comm]

lemma normSq_nonneg (a : List ℝ) : 0 ≤ normSq a := by
  unfold normSq
  induction a with
  | nil => simp [dotl]
  | cons x xs ih => simpa [dotl] using add_nonneg (mul_self_nonneg x) ih

lemma dotl_eq_zero_of_normSq_left (a : List ℝ) (h : normSq a = 0) :
    ∀ b : List ℝ, dotl a b = 0 := by
  induction a with
  | nil => intro b; cases b <;> simp [dotl]
  | cons x xs ih =>
    intro b
    unfold normSq at h
    simp only [dotl] at h
    have hx2 : 0 ≤ x * x := mul_self_nonneg x
    have hxs : 0 ≤ dotl xs xs := normSq_nonneg xs
    have hx : x * x = 0 := by linarith
    have hx0 : x = 0 := by
      have := mul_self_eq_zero.mp hx
      exact this
    have hrest : normSq xs = 0 := by unfold normSq; linarith
    cases b with
    | nil => simp [dotl]
    | cons y ys => simp [dotl, hx0, ih hrest]

lemma dotl_sq_le (a : List ℝ) : ∀ b : List ℝ, dotl a b ^ 2 ≤ normSq a * normSq b := by
  induction a with
  | nil => intro b; cases b <;> simp [dotl, normSq]
  | cons x xs ih =>
    intro b
    cases b with
    | nil => simp [dotl, normSq]
    | cons y ys =>
      have hih := ih ys
      have hna := normSq_nonneg xs
      have hnb := normSq_nonneg ys
      simp only [normSq, dotl] at hih hna hnb ⊢
      rcases eq_or_lt_of_le hnb with h0 | hpos
      · have hd2 : dotl xs ys ^ 2 = 0 := by
          have hle : dotl xs ys ^ 2 ≤ 0 := by nlinarith
          exact le_antisymm hle (sq_nonneg _)
        have hd : dotl xs ys = 0 := pow_eq_zero_iff (by norm_num) |>.mp hd2
        rw [hd, ← h0]
        nlinarith [mul_nonneg hna (mul_self_nonneg y)]
      · nlinarith [sq_nonneg (x * dotl ys ys - y * dotl xs ys),
          mul_nonneg (le_of_lt hpos) (sub_nonneg.mpr hih),
          mul_nonneg (mul_self_nonneg y) (sub_nonneg.mpr hih)]

lemma abs_dotl_le (a b : List ℝ) :
    |dotl a b| ≤ Real.sqrt (normSq a) * Real.sqrt (normSq b) := by
  have h2 : Real.sqrt (dotl a b ^ 2) ≤ Real.sqrt (normSq a * normSq b) :=
    Real.sqrt_le_sqrt (dotl_sq_le a b)
  rwa [Real.sqrt_sq_eq_abs, Real.sqrt_mul (normSq_nonneg a)] at h2

/-- C1: for every pair of input vectors of unequal length, `cosineSimilarity`
throws the dimension-mismatch error instead of returning a number (the guard
at app.js lines 17-19 precedes the arithmetic loop, so no arithmetic is
performed before failing: the result is the error for all vector contents). -/
theorem cosineSimilarity_dim_mismatch (a b : List ℝ) (h : a.length ≠ b.length) :
    cosineSimilarity a b = Except.error "Vectors must have the same dimensions" := by
  simp [cosineSimilarity, h]

theorem cosineSimilarity_dim_mismatch_witness :
    cosineSimilarity [(1 : ℝ)] [] = Except.error "Vectors must have the same dimensions" :=
  cosineSimilarity_dim_mismatch [(1 : ℝ)] [] (by decide)

/-- C2: for all equal-length vectors A and B, `cosineSimilarity A B` equals
`cosineSimilarity B A` (the dot product and the product of the two norms are
both symmetric in the arguments). -/
theorem cosineSimilarity_symm (a b : List ℝ) (h : a.length = b.length) :
    cosineSimilarity a b = cosineSimilarity b a := by
  simp only [cosineSimilarity, h, ne_eq, not_true_eq_false, if_false, ite_false]
  rw [cosLoop_eq a b h, cosLoop_eq b a h.symm]
  show Except.ok (jsDiv (dotl a b) (Real.sqrt (normSq a) * Real.sqrt (normSq b)))
      = Except.ok (jsDiv (dotl b a) (Real.sqrt (normSq b) * Real.sqrt (normSq a)))
  rw [dotl_comm a b, mul_comm (Real.sqrt (normSq a)) (Real.sqrt (normSq b))]

theorem cosineSimilarity_symm_witness :
    cosineSimilarity [(1 : ℝ), 2] [(3 : ℝ), 4] = cosineSimilarity [(3 : ℝ), 4] [(1 : ℝ), 2] :=
  cosineSimilarity_symm [(1 : ℝ), 2] [(3 : ℝ), 4] rfl

/-- C3: for every vector whose norm is strictly positive (equivalently,
`Math.sqrt(normA) > 0`), `cosineSimilarity A A` returns exactly 1: the dot
product of A with itself equals `normA`, and the denominator
`sqrt(normA) * sqrt(normA)` equals `normA` as well. -/
theorem cosineSimilarity_self_one (a : List ℝ) (h : 0 < Real.sqrt (normSq a)) :
    cosineSimilarity a a = Except.ok (JsVal.num 1) := by
  have h0 : 0 < normSq a := Real.sqrt_pos.mp h
  simp only [cosineSimilarity, ne_eq, not_true_eq_false, if_false, ite_false]
  rw [cosLoop_eq a a rfl]
  show Except.ok (jsDiv (normSq a) (Real.sqrt (normSq a) * Real.sqrt (normSq a)))
      = Except.ok (JsVal.num 1)
  rw [Real.mul_self_sqrt h0.le]
  unfold jsDiv
  rw [if_neg (ne_of_gt h0), div_self (ne_of_gt h0)]

theorem cosineSimilarity_self_one_witness :
    cosineSimilarity [(1 : ℝ)] [(1 : ℝ)] = Except.ok (JsVal.num 1) :=
  cosineSimilarity_self_one [(1 : ℝ)] (by
    have h1 : normSq [(1 : ℝ)] = 1 := by simp [normSq, dotl]
    rw [h1, Real.sqrt_one]; norm_num)

/-- C4: whenever either input vector has squared norm exactly zero (in
particular for two empty vectors), `cosineSimilarity` neither throws nor
returns 0: the dot product and the denominator are both zero and the
unguarded JavaScript division `0 / 0` yields NaN. -/
theorem cosineSimilarity_zero_norm_nan (a b : List ℝ) (hlen : a.length = b.length)
    (h : normSq a = 0 ∨ normSq b = 0) :
    cosineSimilarity a b = Except.ok JsVal.nan := by
  have hd : dotl a b = 0 := by
    rcases h with h | h
    · exact dotl_eq_zero_of_normSq_left a h b
    · rw [dotl_comm]; exact dotl_eq_zero_of_normSq_left b h a
  have hden : Real.sqrt (normSq a) * Real.sqrt (normSq b) = 0 := by
    rcases h with h | h
    · rw [h, Real.sqrt_zero, zero_mul]
    · rw [h, Real.sqrt_zero, mul_zero]
  simp only [cosineSimilarity, ne_eq]
  rw [if_neg (by simp [hlen]), cosLoop_eq a b hlen]
  show Except.ok (jsDiv (dotl a b) (Real.sqrt (normSq a) * Real.sqrt (normSq b)))
      = Except.ok JsVal.nan
  rw [hd, hden]
  unfold jsDiv
  rw [if_pos rfl, if_pos rfl]

theorem cosineSimilarity_zero_norm_nan_witness :
    cosineSimilarity ([] : List ℝ) ([] : List ℝ) = Except.ok JsVal.nan :=
  cosineSimilarity_zero_norm_nan [] [] rfl (Or.inl rfl)

/-- C5: for all equal-length vectors with strictly positive squared norms
(equivalently, nonzero norms), `cosineSimilarity` returns an ordinary number
in the closed interval from -1 to 1 (Cauchy-Schwarz bounds the dot product
by the product of the norms). -/
theorem cosineSimilarity_mem_Icc (a b : List ℝ) (hlen : a.length = b.length)
    (ha : 0 < normSq a) (hb : 0 < normSq b) :
    ∃ x : ℝ, cosineSimilarity a b = Except.ok (JsVal.num x) ∧ -1 ≤ x ∧ x ≤ 1 := by
  have hs : 0 < Real.sqrt (normSq a) * Real.sqrt (normSq b) :=
    mul_pos (Real.sqrt_pos.mpr ha) (Real.sqrt_pos.mpr hb)
  refine ⟨dotl a b / (Real.sqrt (normSq a) * Real.sqrt (normSq b)), ?_, ?_⟩
  · simp only [cosineSimilarity, ne_eq]
    rw [if_neg (by simp [hlen]), cosLoop_eq a b hlen]
    show Except.ok (jsDiv (dotl a b) (Real.sqrt (normSq a) * Real.sqrt (normSq b)))
        = Except.ok (JsVal.num (dotl a b / (Real.sqrt (normSq a) * Real.sqrt (normSq b))))
    unfold jsDiv
    rw [if_neg (ne_of_gt hs)]
  · have hx : |dotl a b / (Real.sqrt (normSq a) * Real.sqrt (normSq b))| ≤ 1 := by
      rw [abs_div, abs_of_pos hs, div_le_one hs]
      exact abs_dotl_le a b
    exact abs_le.mp hx

theorem cosineSimilarity_mem_Icc_witness :
    ∃ x : ℝ, cosineSimilarity [(2 : ℝ)] [(3 : ℝ)] = Except.ok (JsVal.num x) ∧ -1 ≤ x ∧ x ≤ 1 :=
  cosineSimilarity_mem_Icc [(2 : ℝ)] [(3 : ℝ)] rfl
    (by norm_num [normSq, dotl]) (by norm_num [normSq, dotl])

/-- Check that one character list starts with another (helper for the model
of JavaScript String.prototype.includes). -/
def isPrefixChars : List Char → List Char → Bool
  | [], _ => true
  | _ :: _, [] => false
  | p :: ps, c :: cs => p == c && isPrefixChars ps cs

/-- Substring containment on character lists. -/
def hasSubChars : List Char → List Char → Bool
  | [], pat => pat.isEmpty
  | c :: t, pat => isPrefixChars pat (c :: t) || hasSubChars t pat

/-- Model of JavaScript String.prototype.includes. -/
def jsIncludes (s pat : String) : Bool := hasSubChars s.data pat.data

/-- Model of JavaScript String.prototype.toLowerCase (ASCII-adequate for the
messages the script inspects). -/
def jsToLower (s : String) : String := String.mk (s.data.map Char.toLower)

/-- The catch filter of loadDocument (app.js lines 165-168):
`msg.includes("maximum context length") || msg.toLowerCase().includes("token")`. -/
def isTokenLimitMsg (msg : String) : Bool :=
  jsIncludes msg "maximum context length" || jsIncludes (jsToLower msg) "token"

/-- Observable effects of one run of the script: console lines, store
creation, file reads, embedding calls and store insertions. -/
inductive Effect where
  | logOut (line : String)
  | logErr (line : String)
  | storeCreated
  | fileRead (path : String)
  | embedCalled (text : String)
  | docAdded (text : String)
deriving DecidableEq

/-- Model of path.basename: the segment after the last slash (the script's
paths have no trailing slash). -/
def basename (p : String) : String :=
  String.mk (p.data.foldl (fun acc c => if c == '/' then [] else acc ++ [c]) [])

/-- Model of path.join as used with process.cwd() and a file name. -/
def joinPath (dir file : String) : String := dir ++ "/" ++ file

/-- Console output of the catch block of loadDocument (app.js lines 163-182):
token-limit failures get the chunking guidance, any other failure the generic
per-file error line. -/
def catchMsgs (filePath msg : String) : List Effect :=
  if isTokenLimitMsg msg then
    [Effect.logErr "This document is too large to embed as a single chunk.",
     Effect.logErr "Token limit exceeded. The embedding model can only process up to 8,191 tokens at once.",
     Effect.logErr "Solution: The document needs to be split into smaller chunks."]
  else
    [Effect.logErr ("Error loading file " ++ filePath ++ ": " ++ msg)]

/-- Model of loadDocument (app.js lines 145-183). `fsys` models
fs.readFileSync (content or thrown message); `embed` models the embedding
call that `vectorStore.addDocuments` makes on the document text. Any thrown
error is caught and turned into console lines and a null (`none`) result; on
success the result is `document.id || fileName`, and since the created
Document carries no id this is the file basename. -/
def loadDocument (fsys : String → Except String String)
    (embed : String → Except String (List ℚ))
    (filePath : String) : Option String × List Effect :=
  match fsys filePath with
  | Except.error e => (none, Effect.fileRead filePath :: catchMsgs filePath e)
  | Except.ok text =>
    match embed text with
    | Except.error e =>
        (none, Effect.fileRead filePath :: Effect.embedCalled text :: catchMsgs filePath e)
    | Except.ok _v =>
        (some (basename filePath),
         [Effect.fileRead filePath, Effect.embedCalled text, Effect.docAdded text,
          Effect.logOut ("Loaded " ++ basename filePath ++ " (" ++ toString text.length
            ++ " chars) into vector store.")])

/-- Model of main (app.js lines 34-184): check GITHUB_TOKEN and exit 1 with
guidance when it is absent; otherwise create the store and load the two
hardcoded documents in sequence. Returns the effect trace and the early exit
code, if any. -/
def mainRun (token : Option String) (fsys : String → Except String String)
    (embed : String → Except String (List ℚ)) (cwd : String) :
    List Effect × Option Nat :=
  let start := [Effect.logOut "JavaScript LangChain Agent Starting..."]
  match token with
  | none =>
      (start ++
        [Effect.logErr "Error: GITHUB_TOKEN not found in environment variables.",
         Effect.logOut "Please create a .env file with your GitHub token:",
         Effect.logOut "GITHUB_TOKEN=your-github-token-here",
         Effect.logOut "Get your token from: https://github.com/settings/tokens",
         Effect.logOut "Or use GitHub Models: https://github.com/marketplace/models"],
       some 1)
  | some tok =>
      let header := start ++
        [Effect.logOut ("GITHUB_TOKEN loaded. Length: " ++ toString tok.length),
         Effect.storeCreated,
         Effect.logOut "=== Loading Documents into Vector Database ==="]
      let path1 := joinPath cwd "HealthInsuranceBrochure.md"
      let r1 := loadDocument fsys embed path1
      let log1 := match r1.1 with
        | some docId =>
            [Effect.logOut ("Document " ++ path1 ++ " loaded successfully with ID: " ++ docId)]
        | none => []
      let path2 := joinPath cwd "EmployeeHandbook.md"
      let r2 := loadDocument fsys embed path2
      let log2 := match r2.1 with
        | some docId =>
            [Effect.logOut ("Document " ++ path2 ++ " loaded successfully with ID: " ++ docId)]
        | none => []
      (header ++ r1.2 ++ log1 ++ r2.2 ++ log2, none)

lemma fileRead_mem_loadDocument (fsys : String → Except String String)
    (embed : String → Except String (List ℚ)) (p : String) :
    Effect.fileRead p ∈ (loadDocument fsys embed p).2 := by
  cases hf : fsys p with
  | error e => simp [loadDocument, hf]
  | ok t =>
    cases he : embed t with
    | error e => simp [loadDocument, hf, he]
    | ok v => simp [loadDocument, hf, he]

/-- C6: when GITHUB_TOKEN is absent from the environment, the run logs the
fatal error with guidance and exits with code 1 before performing any work:
the trace contains no store creation, no file read and no embedding call. -/
theorem main_missing_token (fsys : String → Except String String)
    (embed : String → Except String (List ℚ)) (cwd : String) :
    (mainRun none fsys embed cwd).2 = some 1 ∧
    Effect.logErr "Error: GITHUB_TOKEN not found in environment variables."
      ∈ (mainRun none fsys embed cwd).1 ∧
    Effect.storeCreated ∉ (mainRun none fsys embed cwd).1 ∧
    (∀ p, Effect.fileRead p ∉ (mainRun none fsys embed cwd).1) ∧
    (∀ t, Effect.embedCalled t ∉ (mainRun none fsys embed cwd).1) := by
  refine ⟨rfl, ?_, ?_, ?_, ?_⟩ <;> simp [mainRun]

theorem main_missing_token_witness :
    (mainRun none (fun _ => Except.error "e") (fun _ => Except.error "e") "").2 = some 1 ∧
    Effect.storeCreated
      ∉ (mainRun none (fun _ => Except.error "e") (fun _ => Except.error "e") "").1 :=
  ⟨(main_missing_token _ _ _).1, (main_missing_token _ _ _).2.2.1⟩

/-- C8: if embedding the first document fails (for instance a token-limit or
rate-limit error), loadDocument returns null, the failure is reported through
that document's catch messages, and the run is not aborted: main carries on
and still attempts to read the second document. -/
theorem loadDocument_failure_not_fatal
    (tok cwd t1 e : String) (fsys : String → Except String String)
    (embed : String → Except String (List ℚ))
    (h1 : fsys (joinPath cwd "HealthInsuranceBrochure.md") = Except.ok t1)
    (h2 : embed t1 = Except.error e) :
    (loadDocument fsys embed (joinPath cwd "HealthInsuranceBrochure.md")).1 = none ∧
    (∀ m ∈ catchMsgs (joinPath cwd "HealthInsuranceBrochure.md") e,
        m ∈ (mainRun (some tok) fsys embed cwd).1) ∧
    (mainRun (some tok) fsys embed cwd).2 = none ∧
    Effect.fileRead (joinPath cwd "EmployeeHandbook.md")
      ∈ (mainRun (some tok) fsys embed cwd).1 := by
  have hl1 : loadDocument fsys embed (joinPath cwd "HealthInsuranceBrochure.md")
      = (none, Effect.fileRead (joinPath cwd "HealthInsuranceBrochure.md")
          :: Effect.embedCalled t1
          :: catchMsgs (joinPath cwd "HealthInsuranceBrochure.md") e) := by
    simp [loadDocument, h1, h2]
  refine ⟨by rw [hl1], ?_, rfl, ?_⟩
  · intro m hm
    simp only [mainRun, hl1]
    simp [List.mem_append, hm]
  · have hmem := fileRead_mem_loadDocument fsys embed (joinPath cwd "EmployeeHandbook.md")
    simp only [mainRun]
    simp [List.mem_append, hmem]

/-- C10: loadDocument is total over its failure modes: for every path and
every outcome of the file read and of the embedding call, it returns either
null (after catching the error) or the basename of the loaded file (the
created Document carries no id, so `document.id || fileName` is the
basename); no exception reaches the caller, which the model reflects by
returning in every branch. -/
theorem loadDocument_total (fsys : String → Except String String)
    (embed : String → Except String (List ℚ)) (p : String) :
    (loadDocument fsys embed p).1 = none ∨
    (loadDocument fsys embed p).1 = some (basename p) := by
  cases hf : fsys p with
  | error e => left; simp [loadDocument, hf]
  | ok t =>
    cases he : embed t with
    | error e => left; simp [loadDocument, hf, he]
    | ok v => right; simp [loadDocument, hf, he]

/-- Shape of a response of the remote embedding endpoint, as far as
fetchGithubEmbedding inspects it: ok flag, status code, the optional
Retry-After header, the error body text, and the embedding carried by
`data.data[0].embedding` on success. -/
structure HttpResponse where
  ok : Bool
  status : Nat
  retryAfterHeader : Option String
  body : String
  embeddingData : List ℚ

/-- The HTTP-date branch of the Retry-After handling (app.js lines 90-97):
parse the header as a date (`jsDate`, epoch milliseconds, none for an invalid
date) and report the ceiling of the distance to now in seconds when positive. -/
def dateWaitHint (jsDate : String → Option Int) (now : Int) (ra : String) : Option String :=
  match jsDate ra with
  | none => none
  | some ms =>
      let diff : Int := Int.ceil ((((ms - now : Int)) : ℚ) / 1000)
      if 0 < diff then
        some ("Please wait " ++ toString diff
          ++ " seconds (until the retry date) before trying again.")
      else none

/-- The Retry-After interpretation (app.js lines 84-98): first as a number of
seconds (`jsNum` models Number(), none for NaN), used when positive, else as
an HTTP-date. -/
def waitHint (jsNum : String → Option ℚ) (jsDate : String → Option Int)
    (now : Int) (ra : String) : Option String :=
  match jsNum ra with
  | some s =>
      if 0 < s then some ("Please wait " ++ toString s ++ " seconds before trying again.")
      else dateWaitHint jsDate now ra
  | none => dateWaitHint jsDate now ra

/-- The console line printed on a 429 (app.js lines 99-108), with the wait
hint when one was derived and the generic advice otherwise. -/
def rateLimitLine (hint : Option String) : String :=
  match hint with
  | some w =>
      "Received 429 Too Many Requests from GitHub Models API. You are being rate limited. " ++ w
  | none =>
      "Received 429 Too Many Requests from GitHub Models API. You are being rate limited. Please wait a few minutes before trying again."

/-- Model of fetchGithubEmbedding (app.js lines 66-114) applied to the single
response of its one fetch call: on a non-ok response it throws the status and
body to the caller (no internal retry), after logging the rate-limit line
when the status is 429. -/
def fetchGithubEmbedding (jsNum : String → Option ℚ) (jsDate : String → Option Int)
    (now : Int) (resp : HttpResponse) : List Effect × Except String (List ℚ) :=
  if resp.ok then ([], Except.ok resp.embeddingData)
  else
    let msgs :=
      if resp.status = 429 then
        match resp.retryAfterHeader with
        | some ra => [Effect.logErr (rateLimitLine (waitHint jsNum jsDate now ra))]
        | none => [Effect.logErr (rateLimitLine none)]
      else []
    (msgs, Except.error ("GitHub Models API error: " ++ toString resp.status ++ " " ++ resp.body))

/-- C7: every 429 response makes fetchGithubEmbedding throw the API error to
the caller (it never retries into a success), after logging exactly one
rate-limit line; when the Retry-After header parses as a positive number it
is reported as that many seconds, and when it parses as an HTTP-date the
reported wait is the positive ceiling distance to now in seconds. -/
theorem fetchGithubEmbedding_429 (jsNum : String → Option ℚ)
    (jsDate : String → Option Int) (now : Int) (resp : HttpResponse)
    (hok : resp.ok = false) (h429 : resp.status = 429) :
    (fetchGithubEmbedding jsNum jsDate now resp).2 =
      Except.error ("GitHub Models API error: " ++ toString resp.status ++ " " ++ resp.body) ∧
    (∃ line, (fetchGithubEmbedding jsNum jsDate now resp).1 = [Effect.logErr line]) ∧
    (∀ ra s, resp.retryAfterHeader = some ra → jsNum ra = some s → 0 < s →
      (fetchGithubEmbedding jsNum jsDate now resp).1 =
        [Effect.logErr (rateLimitLine
          (some ("Please wait " ++ toString s ++ " seconds before trying again.")))]) ∧
    (∀ ra ms, resp.retryAfterHeader = some ra → jsNum ra = none → jsDate ra = some ms →
      0 < Int.ceil ((((ms - now : Int)) : ℚ) / 1000) →
      (fetchGithubEmbedding jsNum jsDate now resp).1 =
        [Effect.logErr (rateLimitLine
          (some ("Please wait " ++ toString (Int.ceil ((((ms - now : Int)) : ℚ) / 1000))
            ++ " seconds (until the retry date) before trying again.")))]) := by
  refine ⟨?_, ?_, ?_, ?_⟩
  · simp [fetchGithubEmbedding, hok]
  · cases hra : resp.retryAfterHeader with
    | none => exact ⟨rateLimitLine none, by simp [fetchGithubEmbedding, hok, h429, hra]⟩
    | some ra =>
        exact ⟨rateLimitLine (waitHint jsNum jsDate now ra),
          by simp [fetchGithubEmbedding, hok, h429, hra]⟩
  · intro ra s hra hs hpos
    simp [fetchGithubEmbedding, hok, h429, hra, waitHint, hs, hpos]
  · intro ra ms hra hs hdate hpos
    have h1 : (0 : ℚ) < ((ms - now : Int) : ℚ) / 1000 := Int.ceil_pos.mp hpos
    have h2 : (0 : ℚ) < ((ms - now : Int) : ℚ) := by
      rcases div_pos_iff.mp h1 with ⟨h, _⟩ | ⟨_, h⟩
      · exact h
      · norm_num at h
    have h3 : (0 : Int) < ms - now := by exact_mod_cast h2
    have hlt : now < ms := sub_pos.mp h3
    simp [fetchGithubEmbedding, hok, h429, hra, waitHint, hs, dateWaitHint, hdate, hpos, hlt]

theorem fetchGithubEmbedding_429_witness :
    (fetchGithubEmbedding (fun s => if s = "7" then some 7 else none) (fun _ => none) 0
        ⟨false, 429, some "7", "slow down", []⟩).1 =
      [Effect.logErr (rateLimitLine
        (some ("Please wait " ++ toString (7 : ℚ) ++ " seconds before trying again.")))] :=
  (fetchGithubEmbedding_429 (fun s => if s = "7" then some 7 else none) (fun _ => none) 0
      ⟨false, 429, some "7", "slow down", []⟩ rfl rfl).2.2.1 "7" 7 rfl (by simp) (by norm_num)

/-- Modelled from the spec: the vector store backing the script is the
external MemoryVectorStore library, whose code is not part of this
repository; spec section 3 gives the Record shape (id, text, vector of
fixed dimension D, metadata). -/
structure StoreRecord where
  id : Nat
  text : String
  vector : List ℚ
  metadata : List (String × String)

/-- Modelled from the spec: the Vector Store owns an ordered sequence of
Records, insertion order preserved; every Record has the same vector
dimension D, established by the first insertion. -/
structure VectorStore where
  records : List StoreRecord

/-- Count of stored Records (spec section 4.2, `size()`). -/
def VectorStore.size (s : VectorStore) : Nat := s.records.length

/-- The dimension D established by the first insertion, if any. -/
def VectorStore.dim (s : VectorStore) : Option Nat :=
  s.records.head?.map (fun r => r.vector.length)

/-- Modelled from the spec (section 4.2): `insert(text, vector, metadata)`
appends a new Record with a monotonically increasing identifier, after
validating `len(vector) == D` once D is established by the first insertion,
otherwise failing with DimensionMismatch. -/
def VectorStore.insert (s : VectorStore) (text : String) (v : List ℚ)
    (md : List (String × String)) : Except String (VectorStore × Nat) :=
  match s.dim with
  | some d =>
      if v.length = d then
        Except.ok (⟨s.records ++ [⟨s.size, text, v, md⟩]⟩, s.size)
      else Except.error "DimensionMismatch"
  | none => Except.ok (⟨s.records ++ [⟨s.size, text, v, md⟩]⟩, s.size)

/-- C9: once a store's dimension D has been established by a first insertion,
inserting a vector of a different length fails with DimensionMismatch and
yields no new store: no successful result exists, so the caller keeps the
store it had, with the same `size()` and the same records. -/
theorem VectorStore.insert_dim_mismatch (s : VectorStore) (text : String)
    (v : List ℚ) (md : List (String × String)) (d : Nat)
    (hd : s.dim = some d) (hv : v.length ≠ d) :
    s.insert text v md = Except.error "DimensionMismatch" ∧
    (∀ s' i, s.insert text v md ≠ Except.ok (s', i)) := by
  have h : s.insert text v md = Except.error "DimensionMismatch" := by
    unfold VectorStore.insert
    rw [hd]
    simp [hv]
  refine ⟨h, ?_⟩
  intro s' i hc
  rw [h] at hc
  exact Except.noConfusion hc

theorem VectorStore.insert_dim_mismatch_witness :
    VectorStore.insert ⟨[⟨0, "t", [1, 2], []⟩]⟩ "u" [1, 2, 3] []
      = Except.error "DimensionMismatch" :=
  (VectorStore.insert_dim_mismatch ⟨[⟨0, "t", [1, 2], []⟩]⟩ "u" [1, 2, 3] [] 2
    rfl (by decide)).1

theorem loadDocument_failure_not_fatal_witness :
    (loadDocument
        (fun p => if p = "/HealthInsuranceBrochure.md"
          then Except.ok "DOC1" else Except.ok "DOC2")
        (fun t => if t = "DOC1" then Except.error "boom" else Except.ok [(1 : ℚ)])
        (joinPath "" "HealthInsuranceBrochure.md")).1 = none :=
  (loadDocument_failure_not_fatal "t" "" "DOC1" "boom"
      (fun p => if p = "/HealthInsuranceBrochure.md"
        then Except.ok "DOC1" else Except.ok "DOC2")
      (fun t => if t = "DOC1" then Except.error "boom" else Except.ok [(1 : ℚ)])
      (by simp [joinPath]) (by simp)).1
